import Mathlib

/-!
Shallow embedding of the AI-workforce firm-year pipeline
(`src/python_codes.py`, with the `src/ai_workforce.py` variant where the two
differ), and proofs of the frozen claims about it.

Modelling conventions:
* a pandas DataFrame is a `List` of record structures, one structure per
  stage (skill records, employment spells, expanded panel rows, aggregated
  rows, projected final rows);
* a nullable column (NaN-able) is an `Option`; machine floats never carry
  fractional values on the modelled paths, so year/id/tag columns are `Int`;
* `Series.unique` / `drop_duplicates` keep one representative per value;
  `List.dedup` keeps the last occurrence where pandas keeps the first, which
  is the same table up to row order (the spec declares row order
  insignificant, and every theorem below is order-insensitive);
* the two reference tables are left-joined with unique join keys (per the
  spec a many-to-one or one-to-one crosswalk), modelled as `List.find?` lookups;
* a raised exception is an `Except.error` (Part 3 validation) or `none`
  (Part 2 of `ai_workforce.py`, where `np.repeat` raises on a negative
  repeat count).
-/

namespace AIWF

/-! ## String primitives

Kernel-reducible counterparts of the string operations the scripts use
(`Series.str.strip`, `str.lower`, `str[:4]`, `astype(int)`), written over
`String.data` so that concrete instances evaluate by `decide`.  The data on
the modelled paths is ASCII (skill names, ISO date strings), so ASCII
lower-casing and digit parsing are faithful. -/

/-- ASCII lower-casing of one character, as `str.lower` acts on the ASCII
range. -/
def lowerChar (c : Char) : Char :=
  if 65 ≤ c.toNat ∧ c.toNat ≤ 90 then Char.ofNat (c.toNat + 32) else c

/-- The whitespace characters `str.strip` removes on the modelled data. -/
def isWS (c : Char) : Bool := c == ' ' || c == '\t' || c == '\n' || c == '\r'

/-- Remove leading and trailing whitespace from a character list. -/
def trimChars (l : List Char) : List Char :=
  ((l.dropWhile isWS).reverse.dropWhile isWS).reverse

/-- ASCII decimal digit test. -/
def isDigitC (c : Char) : Bool := 48 ≤ c.toNat && c.toNat ≤ 57

/-- Parse a non-empty all-digit string as an integer (`astype(int)` on the
modelled data, where the parsed prefixes are four decimal digits). -/
def parseInt? (s : String) : Option Int :=
  if s.data ≠ [] ∧ s.data.all isDigitC then
    some (Int.ofNat (s.data.foldl (fun n c => n * 10 + (c.toNat - 48)) 0))
  else none

/-- The first `n` characters of a string (`str[:n]`). -/
def takeStr (s : String) (n : Nat) : String := String.mk (s.data.take n)

/-! ## Part 1 — Skill Filter (`python_codes.py` lines 31-96) -/

/-- One record of an `individual_user_skill_*` parquet batch. -/
structure SkillRecord where
  user_id : String
  skill_raw : String
  skill_mapped : String
  deriving DecidableEq

/-- Mirrors `Series.str.strip().str.lower()`: trim surrounding whitespace,
then lower-case. -/
def normalizeSkill (s : String) : String :=
  String.mk ((trimChars s.data).map lowerChar)

/-- In-place normalization of the two skill columns
(`df["skill_raw"] = df["skill_raw"].str.strip().str.lower()`, same for
`skill_mapped`). -/
def normalizeSkills (r : SkillRecord) : SkillRecord :=
  { r with skill_raw := normalizeSkill r.skill_raw
           skill_mapped := normalizeSkill r.skill_mapped }

/-- The filter condition
`df["skill_raw"].isin(skills_list) | df["skill_mapped"].isin(skills_list)`,
applied after the in-place normalization. -/
def skillMatch (skills_list : List String) (r : SkillRecord) : Bool :=
  skills_list.contains r.skill_raw || skills_list.contains r.skill_mapped

/-- One batch of Part 1: normalize the two skill columns of every record,
keep the records whose raw or mapped skill is in the reference list. -/
def filterBatch (skills_list : List String) (df : List SkillRecord) :
    List SkillRecord :=
  (df.map normalizeSkills).filter (skillMatch skills_list)

/-- `final_combined_skills.csv`: the concatenation of all per-batch filtered
outputs (`pd.concat(all_filtered_data)`). -/
def finalCombined (batches : List (List SkillRecord)) : List SkillRecord :=
  batches.flatten

/-- The load `ai_skilled_users = pd.read_csv(user_skill_file).user_id.unique()`:
the deduplicated user ids of the combined Part 1 output. -/
def aiSkilledUsers (batches : List (List SkillRecord)) : List String :=
  ((finalCombined batches).map (fun r => r.user_id)).dedup

/-! ## Part 2 — Panel Expander (`python_codes.py` lines 113-194) -/

/-- One employment-spell record of a `combined_####_####.csv` batch.
`startdate` and `enddate` are nullable date strings. -/
structure Spell where
  user_id : String
  rcid : Int
  role_k1000 : Int
  startdate : Option String
  enddate : Option String
  deriving DecidableEq

/-- Derivation `df1.startdate.astype(str).str[:4]` then `.astype(int)`, on a
row whose `startdate` is non-missing (missing rows were dropped).
Non-numeric prefixes would make pandas raise; they are outside every
modelled path, so the parse defaults to 0. -/
def startYearOf (d : String) : Int := (parseInt? (takeStr d 4)).getD 0

/-- Derivation `df1.enddate.astype(str).str[:4].fillna(...).replace(...)`,
where the `replace` maps the whole value `"nan"` to `"2024"`:
`astype(str)` turns NaN into the literal string `"nan"`, and the `fillna`
is a no-op after that. -/
def endYearStr (e : Option String) : String :=
  let s := takeStr (match e with | none => "nan" | some d => d) 4
  if s = "nan" then "2024" else s

/-- The derived end year (`.astype(int)` of `endYearStr`). -/
def endYearOf (e : Option String) : Int := (parseInt? (endYearStr e)).getD 0

/-- The `np.where(start_year > end_year, [end, start], [start, end])` swap. -/
def repairYears (s e : Int) : Int × Int := if s > e then (e, s) else (s, e)

/-- Left-join lookup of `id_parat` in the rcid-to-id_parat crosswalk
(`pd.merge` of `df1` with the `rcid`/`id_parat` columns of `df2`, on `rcid`,
how left, with a unique-key crosswalk). -/
def lookupParat (xw : List (Int × Int)) (rcid : Int) : Option Int :=
  (xw.find? (fun p => p.1 == rcid)).map Prod.snd

/-- Left-join lookup of `tag` in the role-tag table
(`pd.merge` of `df1` with the `role_k1000`/`tag` columns of `df3`, on
`role_k1000`, how left, with a unique-key table). -/
def lookupTag (roles : List (Int × Int)) (role : Int) : Option Int :=
  (roles.find? (fun p => p.1 == role)).map Prod.snd

/-- One row of an expanded `interim_combined_####_####.csv` panel. -/
structure PanelRow where
  user_id : String
  rcid : Int
  role_k1000 : Int
  startdate : Option String
  enddate : Option String
  start_year : Int
  end_year : Int
  id_parat : Option Int
  tag : Option Int
  year : Int
  labor_with_AI_skill : Int
  deriving DecidableEq

/-- The integer years `[a, a+1, ..., b]`, empty when `b < a`: the value list
`range(start, end + 1)` contributes for one spell. -/
def yearRange (a b : Int) : List Int :=
  (List.range (b - a + 1).toNat).map (fun (k : Nat) => a + (k : Int))

/-- Expansion of one kept spell (derive the two years, left-join the two
reference tables, swap inverted years, then emit one row per year of the
repaired inclusive range).  `labor_with_AI_skill` is initialised to 0 here
and assigned after expansion, as in the source, by `panelExpand`. -/
def expandOne (xw roles : List (Int × Int)) (s : Spell) : List PanelRow :=
  let sy0 := startYearOf (s.startdate.getD (""))
  let ey0 := endYearOf s.enddate
  let p := repairYears sy0 ey0
  (yearRange p.1 p.2).map (fun y =>
    { user_id := s.user_id, rcid := s.rcid, role_k1000 := s.role_k1000,
      startdate := s.startdate, enddate := s.enddate,
      start_year := p.1, end_year := p.2,
      id_parat := lookupParat xw s.rcid, tag := lookupTag roles s.role_k1000,
      year := y, labor_with_AI_skill := 0 })

/-- Column `df1_expanded.user_id.isin(ai_skilled_users).astype(int)` for one
row. -/
def laborTag (aiUsers : List String) (uid : String) : Int :=
  if aiUsers.contains uid then 1 else 0

/-- Part 2 on one batch: drop rows with missing `startdate`, expand every
remaining spell over its repaired year range, then attach the
`labor_with_AI_skill` membership column to every expanded row. -/
def panelExpand (xw roles : List (Int × Int)) (aiUsers : List String)
    (spells : List Spell) : List PanelRow :=
  ((spells.filter (fun s => s.startdate.isSome)).flatMap (expandOne xw roles)).map
    (fun r => { r with labor_with_AI_skill := laborTag aiUsers r.user_id })

/-- The `ai_workforce.py` variant of the end-year derivation:
`df.enddate.fillna("2024").astype(str).str[:4]`. -/
def endYearOfAW (e : Option String) : Int :=
  (parseInt? (takeStr (e.getD ("2024")) 4)).getD 0

/-- Expansion of one kept spell in the `ai_workforce.py` variant: same as
`expandOne` but with no swap repair step. -/
def expandOneAW (xw roles : List (Int × Int)) (s : Spell) : List PanelRow :=
  let sy := startYearOf (s.startdate.getD (""))
  let ey := endYearOfAW s.enddate
  (yearRange sy ey).map (fun y =>
    { user_id := s.user_id, rcid := s.rcid, role_k1000 := s.role_k1000,
      startdate := s.startdate, enddate := s.enddate,
      start_year := sy, end_year := ey,
      id_parat := lookupParat xw s.rcid, tag := lookupTag roles s.role_k1000,
      year := y, labor_with_AI_skill := 0 })

/-- Part 2 of `ai_workforce.py`: no swap step, so
`np.repeat(values, end_year - start_year + 1)` raises (modelled as `none`)
as soon as some kept spell has a negative repeat count
`end_year - start_year + 1`. -/
def panelExpandAW (xw roles : List (Int × Int)) (aiUsers : List String)
    (spells : List Spell) : Option (List PanelRow) :=
  let kept := spells.filter (fun s => s.startdate.isSome)
  if kept.all (fun s =>
      0 ≤ endYearOfAW s.enddate - startYearOf (s.startdate.getD ("")) + 1) then
    some ((kept.flatMap (expandOneAW xw roles)).map
      (fun r => { r with labor_with_AI_skill := laborTag aiUsers r.user_id }))
  else none

/-! ## Part 3 — Firm-Year Aggregator (`python_codes.py` lines 223-267) -/

/-- Test `df.tag == 1` on one row (NaN compares unequal). -/
def tagIs1 (x : PanelRow) : Bool := x.tag == some 1

/-- Test `df.labor_with_AI_skill == 1` on one row. -/
def aiIs1 (x : PanelRow) : Bool := x.labor_with_AI_skill == 1

/-- Transform `groupby(...).user_id.transform("nunique")` evaluated at one group:
the number of distinct `user_id` values among the rows satisfying `p`. -/
def distinctUsers (df : List PanelRow) (p : PanelRow → Bool) : Nat :=
  ((df.filter p).map (fun r => r.user_id)).dedup.length

/-- One row of an `interim_filtered_*` file: the source row plus the eight
metric columns.  A conditional metric (`df[pred].groupby(key).transform`)
exists on a row only when the row satisfies the predicate and its group key
is non-missing; every other row receives NaN from index alignment, because
the `.fillna(0)` of the source is applied to the subset-indexed transform result
(where it is a no-op) before the alignment, not after. -/
structure AggRow where
  base : PanelRow
  rcid_total : Nat
  rcid_tag : Option Nat
  rcid_AI_skill : Option Nat
  rcid_tag_AI_skill : Option Nat
  id_parat_total : Option Nat
  id_parat_tag : Option Nat
  id_parat_AI_skill : Option Nat
  id_parat_tag_AI_skill : Option Nat
  deriving DecidableEq

/-- The eight metric columns of Part 3 Step 3, evaluated at one row `r` of
the batch `df`.  Grouping by `id_parat` and `year` drops rows whose
`id_parat` is NaN (pandas `dropna=True`), so every `id_parat`-keyed metric
is missing on such rows. -/
def aggregateRow (df : List PanelRow) (r : PanelRow) : AggRow :=
  { base := r
    rcid_total :=
      distinctUsers df (fun x => x.rcid == r.rcid && x.year == r.year)
    rcid_tag :=
      if tagIs1 r then
        some (distinctUsers df (fun x =>
          tagIs1 x && x.rcid == r.rcid && x.year == r.year))
      else none
    rcid_AI_skill :=
      if aiIs1 r then
        some (distinctUsers df (fun x =>
          aiIs1 x && x.rcid == r.rcid && x.year == r.year))
      else none
    rcid_tag_AI_skill :=
      if aiIs1 r && tagIs1 r then
        some (distinctUsers df (fun x =>
          aiIs1 x && tagIs1 x && x.rcid == r.rcid && x.year == r.year))
      else none
    id_parat_total :=
      if r.id_parat.isSome then
        some (distinctUsers df (fun x =>
          x.id_parat == r.id_parat && x.year == r.year))
      else none
    id_parat_tag :=
      if tagIs1 r && r.id_parat.isSome then
        some (distinctUsers df (fun x =>
          tagIs1 x && x.id_parat == r.id_parat && x.year == r.year))
      else none
    id_parat_AI_skill :=
      if aiIs1 r && r.id_parat.isSome then
        some (distinctUsers df (fun x =>
          aiIs1 x && x.id_parat == r.id_parat && x.year == r.year))
      else none
    id_parat_tag_AI_skill :=
      if aiIs1 r && tagIs1 r && r.id_parat.isSome then
        some (distinctUsers df (fun x =>
          aiIs1 x && tagIs1 x && x.id_parat == r.id_parat && x.year == r.year))
      else none }

/-- Check `df.labor_with_AI_skill.isin([0, 1]).all()`. -/
def validLabor (df : List PanelRow) : Bool :=
  df.all (fun r => r.labor_with_AI_skill == 0 || r.labor_with_AI_skill == 1)

/-- The message of the `ValueError` raised by
`validate_labor_with_AI_skill`. -/
def laborErrMsg : String := "labor_with_AI_skill values are not 1 or 0"

/-- Part 3 on one batch: validate the `labor_with_AI_skill` column
(`raise ValueError(...)` on violation, which aborts the batch), then attach
the eight metric columns to every row. -/
def aggregate (df : List PanelRow) : Except String (List AggRow) :=
  if validLabor df then Except.ok (df.map (aggregateRow df))
  else Except.error laborErrMsg

/-! ## Part 4 — Projector/Combiner (`python_codes.py` lines 291-344) -/

/-- One row of the final table, the `columns_to_keep` projection. -/
structure FinalRow where
  id_parat : Option Int
  rcid : Int
  year : Int
  rcid_total : Nat
  rcid_tag : Option Nat
  id_parat_total : Option Nat
  id_parat_tag : Option Nat
  rcid_AI_skill : Option Nat
  rcid_tag_AI_skill : Option Nat
  id_parat_AI_skill : Option Nat
  id_parat_tag_AI_skill : Option Nat
  deriving DecidableEq

/-- `df[columns_to_keep]` on one aggregated row. -/
def projectRow (a : AggRow) : FinalRow :=
  { id_parat := a.base.id_parat, rcid := a.base.rcid, year := a.base.year,
    rcid_total := a.rcid_total, rcid_tag := a.rcid_tag,
    id_parat_total := a.id_parat_total, id_parat_tag := a.id_parat_tag,
    rcid_AI_skill := a.rcid_AI_skill,
    rcid_tag_AI_skill := a.rcid_tag_AI_skill,
    id_parat_AI_skill := a.id_parat_AI_skill,
    id_parat_tag_AI_skill := a.id_parat_tag_AI_skill }

/-- `df[columns_to_keep].drop_duplicates()` on one batch (exact-duplicate
rows collapse; NaN equals NaN for this purpose, as for `Option.none`). -/
def projectBatch (batch : List AggRow) : List FinalRow :=
  (batch.map projectRow).dedup

/-- `pd.concat(dataframes)`: the final combined table over all batch
outputs.  No deduplication happens across batches. -/
def finalTable (batches : List (List AggRow)) : List FinalRow :=
  (batches.map projectBatch).flatten

/-- The number of rows of a final table carrying a given (rcid, year)
pair. -/
def countFirmYear (t : List FinalRow) (rcid year : Int) : Nat :=
  t.countP (fun fr => fr.rcid == rcid && fr.year == year)

/-! ## Concrete instances used by counterexamples and witnesses -/

/-- A Part 3 input row for firm `rc` in year `yr`, with the given tag and
`labor_with_AI_skill` values. -/
def exRow (uid : String) (rc : Int) (yr : Int) (tg : Option Int) (ai : Int) :
    PanelRow :=
  { user_id := uid, rcid := rc, role_k1000 := 5,
    startdate := some ("2018-01-01"), enddate := some ("2021-12-31"),
    start_year := 2018, end_year := 2021,
    id_parat := some 7, tag := tg, year := yr, labor_with_AI_skill := ai }

/-- A batch whose single (rcid = 1, year = 2020) group holds one tagged and
one untagged individual. -/
def rowsTag : List PanelRow :=
  [exRow ("U1") 1 2020 (some 1) 0, exRow ("U2") 1 2020 (some 0) 0]

/-- A one-row batch for firm 2 in year 2021. -/
def rowsB : List PanelRow := [exRow ("U1") 2 2021 (some 1) 1]

/-- The aggregated rows of a batch that passes validation (the `Except.ok`
payload of `aggregate`). -/
def aggOk (df : List PanelRow) : List AggRow :=
  match aggregate df with
  | .ok l => l
  | .error _ => []

/-- A spell with inverted derived years (start 2021, end 2019). -/
def spellInv : Spell := ⟨"U1", 1, 5, some ("2021-01-01"), some ("2019-06-30")⟩

/-- A spell with an ordinary derived range 2018-2020. -/
def spellOrd : Spell := ⟨"U1", 1, 5, some ("2018-03-01"), some ("2020-12-31")⟩

/-- A spell with a missing end date whose derived start year is 2019. -/
def spellOpen : Spell := ⟨"U1", 1, 5, some ("2019-03-01"), none⟩

/-- A spell with a missing end date whose derived start year 2025 lies past
the substituted as-of year 2024. -/
def spellLate : Spell := ⟨"U1", 1, 5, some ("2025-01-01"), none⟩

/-- One Part 1 output batch containing one AI-skilled individual, `U1`. -/
def skillBatches : List (List SkillRecord) := [[⟨"U1", "python", "python"⟩]]

/-- A one-spell Part 2 input batch for individual `U1`. -/
def spellsU1 : List Spell := [⟨"U1", 1, 5, some ("2019-03-01"), some ("2019-12-31")⟩]

/-- The single row `panelExpand [] [] (aiSkilledUsers skillBatches) spellsU1`
produces. -/
def rowU1 : PanelRow :=
  { user_id := "U1", rcid := 1, role_k1000 := 5,
    startdate := some ("2019-03-01"), enddate := some ("2019-12-31"),
    start_year := 2019, end_year := 2019,
    id_parat := none, tag := none, year := 2019, labor_with_AI_skill := 1 }

end AIWF

namespace AIWF

/-! ## General lemmas -/

/-- Length of an integer range. -/
theorem yearRange_length (a b : Int) :
    (yearRange a b).length = (b - a + 1).toNat := by
  simp [yearRange]

/-- Membership in an integer range. -/
theorem mem_yearRange {a b y : Int} : y ∈ yearRange a b ↔ a ≤ y ∧ y ≤ b := by
  simp only [yearRange, List.mem_map, List.mem_range]
  constructor
  · rintro ⟨k, hk, rfl⟩
    omega
  · intro h
    exact ⟨(y - a).toNat, by omega, by omega⟩

/-- The last element of a non-empty integer range. -/
theorem yearRange_getLast? (a b : Int) (h : a ≤ b) :
    (yearRange a b).getLast? = some b := by
  unfold yearRange
  have hn : (b - a + 1).toNat = (b - a).toNat + 1 := by omega
  rw [hn, List.range_succ, List.map_append, List.map_cons, List.map_nil,
    List.getLast?_concat]
  congr 1
  omega

/-- In a duplicate-free list in which all members satisfying `p` are equal,
at most one member satisfies `p`. -/
theorem countP_le_one_of_nodup {α : Type} {l : List α} {p : α → Bool}
    (hnd : l.Nodup)
    (huniq : ∀ x ∈ l, ∀ y ∈ l, p x = true → p y = true → x = y) :
    l.countP p ≤ 1 := by
  induction l with
  | nil => simp
  | cons a l ih =>
    obtain ⟨ha, hl⟩ := List.nodup_cons.mp hnd
    rw [List.countP_cons]
    by_cases hpa : p a = true
    · have hzero : l.countP p = 0 := List.countP_eq_zero.mpr (by
        intro b hb hpb
        exact ha ((huniq b (List.mem_cons_of_mem a hb) a (List.mem_cons_self a l)
          hpb hpa) ▸ hb))
      simp [hzero, hpa]
    · have h0 : (if p a then 1 else 0) = 0 := by simp [hpa]
      rw [h0, Nat.add_zero]
      exact ih hl (fun x hx y hy hpx hpy =>
        huniq x (List.mem_cons_of_mem a hx) y (List.mem_cons_of_mem a hy) hpx hpy)

/-- A list of naturals each at most 1 sums to at most its length. -/
theorem sum_le_length_of_le_one {l : List Nat} (h : ∀ x ∈ l, x ≤ 1) :
    l.sum ≤ l.length := by
  induction l with
  | nil => simp
  | cons a l ih =>
    simp only [List.sum_cons, List.length_cons]
    have h1 := h a (List.mem_cons_self a l)
    have h2 := ih (fun x hx => h x (List.mem_cons_of_mem a hx))
    omega

/-- Unfolding of `expandOne` once the derived and repaired years are
known. -/
theorem expandOne_eq (xw roles : List (Int × Int)) (s : Spell) (d : String)
    (sy ey : Int) (hd : s.startdate = some d)
    (hrep : repairYears (startYearOf d) (endYearOf s.enddate) = (sy, ey)) :
    expandOne xw roles s = (yearRange sy ey).map (fun y =>
      { user_id := s.user_id, rcid := s.rcid, role_k1000 := s.role_k1000,
        startdate := s.startdate, enddate := s.enddate,
        start_year := sy, end_year := ey,
        id_parat := lookupParat xw s.rcid, tag := lookupTag roles s.role_k1000,
        year := y, labor_with_AI_skill := 0 }) := by
  unfold expandOne
  rw [hd]
  simp only [Option.getD_some]
  rw [hrep]

end AIWF

namespace AIWF

/-! ## Claims about the Panel Expander (Part 2) -/

/-- C3 counterexample: the claim says the Panel Expander swaps inverted
years and never raises, but the `ai_workforce.py` variant has no swap step,
and on the spell (start 2021, end 2019) its expansion fails (`np.repeat`
with repeat count -1 raises) instead of emitting 3 rows. -/
theorem c3_counterexample :
    panelExpandAW [] [] [] [spellInv] = none := by decide

/-- C3 (amended): in the `python_codes.py` Panel Expander, a spell with
derived start year strictly greater than derived end year has the two years
swapped, and expands — without any error — over the inclusive range from
the derived end year up to the derived start year, emitting a positive
number of rows. -/
theorem c3_swap_repair (xw roles : List (Int × Int)) (s : Spell) (d : String)
    (hd : s.startdate = some d)
    (hinv : endYearOf s.enddate < startYearOf d) :
    (expandOne xw roles s).map (fun r => r.year) =
      yearRange (endYearOf s.enddate) (startYearOf d) ∧
    (expandOne xw roles s).length =
      (startYearOf d - endYearOf s.enddate + 1).toNat ∧
    0 < (expandOne xw roles s).length := by
  have hrep : repairYears (startYearOf d) (endYearOf s.enddate) =
      (endYearOf s.enddate, startYearOf d) := by
    unfold repairYears
    rw [if_pos hinv]
  rw [expandOne_eq xw roles s d (endYearOf s.enddate) (startYearOf d) hd hrep]
  refine ⟨?_, ?_, ?_⟩
  · rw [List.map_map]
    exact List.map_id _
  · rw [List.length_map, yearRange_length]
  · rw [List.length_map, yearRange_length]
    omega

/-- C3 witness: the inverted spell (2021, 2019) yields exactly the 3 years
2019, 2020, 2021. -/
theorem c3_swap_repair_witness :
    (expandOne [] [] spellInv).map (fun r => r.year) = [2019, 2020, 2021] := by
  have h := (c3_swap_repair [] [] spellInv ("2021-01-01") rfl (by decide)).1
  rw [h]
  decide

/-- C4: for a kept spell whose repaired years satisfy start ≤ end, the
expansion emits exactly end − start + 1 rows, one per integer year of the
inclusive range, each row inheriting every other spell field unchanged, and
exactly one row when the two years coincide. -/
theorem c4_expansion (xw roles : List (Int × Int)) (s : Spell) (d : String)
    (sy ey : Int) (hd : s.startdate = some d)
    (hrep : repairYears (startYearOf d) (endYearOf s.enddate) = (sy, ey))
    (hle : sy ≤ ey) :
    (expandOne xw roles s).length = (ey - sy + 1).toNat ∧
    (expandOne xw roles s).map (fun r => r.year) = yearRange sy ey ∧
    (∀ y : Int, (∃ r ∈ expandOne xw roles s, r.year = y) ↔ sy ≤ y ∧ y ≤ ey) ∧
    (∀ r ∈ expandOne xw roles s,
      r.user_id = s.user_id ∧ r.rcid = s.rcid ∧ r.role_k1000 = s.role_k1000 ∧
      r.startdate = s.startdate ∧ r.enddate = s.enddate) ∧
    (sy = ey → (expandOne xw roles s).length = 1) := by
  rw [expandOne_eq xw roles s d sy ey hd hrep]
  refine ⟨?_, ?_, ?_, ?_, ?_⟩
  · rw [List.length_map, yearRange_length]
  · rw [List.map_map]
    exact List.map_id _
  · intro y
    constructor
    · rintro ⟨r, hr, rfl⟩
      obtain ⟨k, hk, rfl⟩ := List.mem_map.mp hr
      exact mem_yearRange.mp hk
    · intro hy
      exact ⟨_, List.mem_map.mpr ⟨y, mem_yearRange.mpr hy, rfl⟩, rfl⟩
  · intro r hr
    obtain ⟨k, hk, rfl⟩ := List.mem_map.mp hr
    exact ⟨rfl, rfl, rfl, rfl, rfl⟩
  · intro heq
    rw [List.length_map, yearRange_length]
    omega

/-- C4 witness: the spell (2018, 2020) expands to exactly 3 rows carrying
the years 2018, 2019, 2020, and a same-year spell expands to 1 row. -/
theorem c4_expansion_witness :
    (expandOne [] [] spellOrd).length = 3 ∧
    (expandOne [] [] spellOrd).map (fun r => r.year) = [2018, 2019, 2020] := by
  have h := c4_expansion [] [] spellOrd ("2018-03-01") 2018 2020 rfl (by decide)
    (by decide)
  refine ⟨?_, ?_⟩
  · rw [h.1]
    decide
  · rw [h.2.1]
    decide

/-- C8 counterexample: for a spell with missing end date and derived start
year 2025, the substituted end year 2024 is below the start year, the swap
makes the expanded range [2024, 2025], and the last emitted row carries
year 2025, not 2024 as the claim states. -/
theorem c8_counterexample :
    (expandOne [] [] spellLate).map (fun r => r.year) = [2024, 2025] ∧
    ¬((expandOne [] [] spellLate).map (fun r => r.year)).getLast? = some 2024 := by
  decide

/-- C8 (amended): a spell with a non-missing start date and a missing end
date gets the fixed as-of year 2024 substituted as its derived end year,
and — provided its derived start year is at most 2024 — expands through
2024 inclusive, its last emitted row carrying year 2024. -/
theorem c8_default_end (xw roles : List (Int × Int)) (s : Spell) (d : String)
    (hd : s.startdate = some d) (he : s.enddate = none)
    (hle : startYearOf d ≤ 2024) :
    endYearOf s.enddate = 2024 ∧
    ((expandOne xw roles s).map (fun r => r.year)).getLast? = some 2024 := by
  have h24 : endYearOf s.enddate = 2024 := by
    rw [he]
    decide
  refine ⟨h24, ?_⟩
  have hrep : repairYears (startYearOf d) (endYearOf s.enddate) =
      (startYearOf d, 2024) := by
    rw [h24]
    unfold repairYears
    rw [if_neg (by omega)]
  have hmap : (expandOne xw roles s).map (fun r => r.year) =
      yearRange (startYearOf d) 2024 := by
    rw [expandOne_eq xw roles s d (startYearOf d) 2024 hd hrep, List.map_map]
    exact List.map_id _
  rw [hmap]
  exact yearRange_getLast? (startYearOf d) 2024 hle

/-- C8 witness: the open-ended spell starting 2019 expands through 2024,
its last row carrying year 2024. -/
theorem c8_default_end_witness :
    endYearOf spellOpen.enddate = 2024 ∧
    ((expandOne [] [] spellOpen).map (fun r => r.year)).getLast? = some 2024 :=
  c8_default_end [] [] spellOpen ("2019-03-01") rfl rfl (by decide)

end AIWF

namespace AIWF

/-! ## Claims about the Skill Filter (Part 1) -/

/-- C9 counterexample: the Skill Filter writes the normalized records, so on
an input record with an upper-case skill the emitted record is not among
the input records (the claimed subset relation fails literally). -/
theorem c9_counterexample :
    filterBatch ["python"] [⟨"U1", "Python", "java"⟩] =
      [⟨"U1", "python", "java"⟩] ∧
    (⟨"U1", "python", "java"⟩ : SkillRecord) ∉
      ([⟨"U1", "Python", "java"⟩] : List SkillRecord) := by
  decide

/-- C9 (amended): every output record of the Skill Filter is an input
record with its two skill fields trimmed and lower-cased (all other fields
unchanged) whose normalized raw or mapped skill appears in the reference
list, and conversely every input record matching that OR condition appears
normalized in the output. -/
theorem c9_filter_membership (skills_list : List String)
    (df : List SkillRecord) :
    (∀ x ∈ filterBatch skills_list df,
      ∃ r ∈ df, x = normalizeSkills r ∧ x.user_id = r.user_id ∧
        x.skill_raw = normalizeSkill r.skill_raw ∧
        x.skill_mapped = normalizeSkill r.skill_mapped ∧
        (skills_list.contains (normalizeSkill r.skill_raw) ||
          skills_list.contains (normalizeSkill r.skill_mapped)) = true) ∧
    (∀ r ∈ df,
      (skills_list.contains (normalizeSkill r.skill_raw) ||
        skills_list.contains (normalizeSkill r.skill_mapped)) = true →
      normalizeSkills r ∈ filterBatch skills_list df) := by
  constructor
  · intro x hx
    obtain ⟨hmem, hmatch⟩ := List.mem_filter.mp hx
    obtain ⟨r, hr, rfl⟩ := List.mem_map.mp hmem
    exact ⟨r, hr, rfl, rfl, rfl, rfl, hmatch⟩
  · intro r hr hmatch
    exact List.mem_filter.mpr ⟨List.mem_map.mpr ⟨r, hr, rfl⟩, hmatch⟩

/-! ## Claims about the AI-skill membership column (C7, C10) -/

/-- Membership in the deduplicated union of the Part 1 batch outputs. -/
theorem mem_aiSkilledUsers (batches : List (List SkillRecord)) (u : String) :
    u ∈ aiSkilledUsers batches ↔ ∃ b ∈ batches, ∃ rec ∈ b, rec.user_id = u := by
  unfold aiSkilledUsers finalCombined
  rw [List.mem_dedup]
  constructor
  · intro h
    obtain ⟨rec, hrec, hu⟩ := List.mem_map.mp h
    obtain ⟨b, hb, hrb⟩ := List.mem_flatten.mp hrec
    exact ⟨b, hb, rec, hrb, hu⟩
  · rintro ⟨b, hb, rec, hrb, hu⟩
    exact List.mem_map.mpr ⟨rec, List.mem_flatten.mpr ⟨b, hb, hrb⟩, hu⟩

/-- C7: a row of the expanded panel carries `labor_with_AI_skill = 1`
exactly when its individual appears in some Skill-Filter batch output, and
0 exactly otherwise — the same criterion whether the individual appears in
one batch or many. -/
theorem c7_membership (xw roles : List (Int × Int))
    (batches : List (List SkillRecord)) (spells : List Spell) (r : PanelRow)
    (hr : r ∈ panelExpand xw roles (aiSkilledUsers batches) spells) :
    (r.labor_with_AI_skill = 1 ↔
      ∃ b ∈ batches, ∃ rec ∈ b, rec.user_id = r.user_id) ∧
    (r.labor_with_AI_skill = 0 ↔
      ¬∃ b ∈ batches, ∃ rec ∈ b, rec.user_id = r.user_id) := by
  unfold panelExpand at hr
  obtain ⟨r0, _, rfl⟩ := List.mem_map.mp hr
  show (laborTag (aiSkilledUsers batches) r0.user_id = 1 ↔
      ∃ b ∈ batches, ∃ rec ∈ b, rec.user_id = r0.user_id) ∧
    (laborTag (aiSkilledUsers batches) r0.user_id = 0 ↔
      ¬∃ b ∈ batches, ∃ rec ∈ b, rec.user_id = r0.user_id)
  have hiff : (aiSkilledUsers batches).contains r0.user_id = true ↔
      ∃ b ∈ batches, ∃ rec ∈ b, rec.user_id = r0.user_id := by
    rw [List.elem_iff]
    exact mem_aiSkilledUsers batches r0.user_id
  by_cases h : (aiSkilledUsers batches).contains r0.user_id = true
  · rw [laborTag, if_pos h]
    constructor
    · simp [hiff.mp h]
    · simp [hiff.mp h]
  · have hnot : ¬∃ b ∈ batches, ∃ rec ∈ b, rec.user_id = r0.user_id :=
      fun hex => h (hiff.mpr hex)
    rw [laborTag, if_neg h]
    constructor
    · simp [hnot]
    · simp [hnot]

/-- C7 witness: on the one-individual instance, the expanded row of `U1`
carries `labor_with_AI_skill = 1` exactly because `U1` is in the single
skill batch. -/
theorem c7_membership_witness :
    (rowU1.labor_with_AI_skill = 1 ↔
      ∃ b ∈ skillBatches, ∃ rec ∈ b, rec.user_id = rowU1.user_id) ∧
    (rowU1.labor_with_AI_skill = 0 ↔
      ¬∃ b ∈ skillBatches, ∃ rec ∈ b, rec.user_id = rowU1.user_id) :=
  c7_membership [] [] skillBatches spellsU1 rowU1 (by decide)

/-! ## Claims about the Firm-Year Aggregator (Part 3) -/

/-- The Part 3 validation succeeds exactly when every
`labor_with_AI_skill` value is 0 or 1. -/
theorem validLabor_eq_true_iff (df : List PanelRow) :
    validLabor df = true ↔
      ∀ r ∈ df, r.labor_with_AI_skill = 0 ∨ r.labor_with_AI_skill = 1 := by
  unfold validLabor
  rw [List.all_eq_true]
  constructor
  · intro h r hr
    simpa using h r hr
  · intro h r hr
    simpa using h r hr

/-- C5: the Aggregator raises the `ValueError` (and aborts the batch,
producing no output rows) exactly when some `labor_with_AI_skill` value
lies outside 0/1; on valid input it attaches metrics to every row with no
row coerced or skipped. -/
theorem c5_validation_gate (df : List PanelRow) :
    (aggregate df = Except.error laborErrMsg ↔
      ∃ r ∈ df, r.labor_with_AI_skill ≠ 0 ∧ r.labor_with_AI_skill ≠ 1) ∧
    ((∀ r ∈ df, r.labor_with_AI_skill = 0 ∨ r.labor_with_AI_skill = 1) →
      aggregate df = Except.ok (df.map (aggregateRow df))) := by
  by_cases h : validLabor df = true
  · have hall := (validLabor_eq_true_iff df).mp h
    constructor
    · constructor
      · intro herr
        unfold aggregate at herr
        rw [if_pos h] at herr
        exact absurd herr (by simp)
      · rintro ⟨r, hr, h0, h1⟩
        rcases hall r hr with h2 | h2
        · exact absurd h2 h0
        · exact absurd h2 h1
    · intro _
      unfold aggregate
      rw [if_pos h]
  · constructor
    · have hex : ∃ r ∈ df,
          r.labor_with_AI_skill ≠ 0 ∧ r.labor_with_AI_skill ≠ 1 := by
        have hnall : ¬∀ r ∈ df,
            r.labor_with_AI_skill = 0 ∨ r.labor_with_AI_skill = 1 :=
          fun hall => h ((validLabor_eq_true_iff df).mpr hall)
        push_neg at hnall
        exact hnall
      refine ⟨fun _ => hex, fun _ => ?_⟩
      unfold aggregate
      rw [if_neg h]
    · intro hall
      exact absurd ((validLabor_eq_true_iff df).mpr hall) h

/-- C10: every row the Panel Expander emits carries a
`labor_with_AI_skill` of 0 or 1, so on any input the Expander itself
produced, the validation of the Aggregator always passes and its error
branch is unreachable. -/
theorem c10_labor_invariant (xw roles : List (Int × Int))
    (aiUsers : List String) (spells : List Spell) :
    (∀ r ∈ panelExpand xw roles aiUsers spells,
      r.labor_with_AI_skill = 0 ∨ r.labor_with_AI_skill = 1) ∧
    aggregate (panelExpand xw roles aiUsers spells) =
      Except.ok ((panelExpand xw roles aiUsers spells).map
        (aggregateRow (panelExpand xw roles aiUsers spells))) := by
  have hall : ∀ r ∈ panelExpand xw roles aiUsers spells,
      r.labor_with_AI_skill = 0 ∨ r.labor_with_AI_skill = 1 := by
    intro r hr
    unfold panelExpand at hr
    obtain ⟨r0, _, rfl⟩ := List.mem_map.mp hr
    show laborTag aiUsers r0.user_id = 0 ∨ laborTag aiUsers r0.user_id = 1
    unfold laborTag
    by_cases h : aiUsers.contains r0.user_id = true
    · right
      rw [if_pos h]
    · left
      rw [if_neg h]
  refine ⟨hall, ?_⟩
  unfold aggregate
  rw [if_pos ((validLabor_eq_true_iff _).mpr hall)]

/-- C6: wherever one of the eight metric columns is attached, its value is
the number of distinct individual ids — the cardinality of the set of
`user_id` values — among the rows of the batch in that grouping-key group
satisfying the metric predicate, so duplicate rows of one individual
contribute exactly once. -/
theorem c6_distinct_counts (df : List PanelRow) (r : PanelRow) :
    ((aggregateRow df r).rcid_total =
      ((df.filter (fun x => x.rcid == r.rcid && x.year == r.year)).map
        (fun x => x.user_id)).toFinset.card) ∧
    (tagIs1 r = true → (aggregateRow df r).rcid_tag =
      some (((df.filter (fun x =>
          tagIs1 x && x.rcid == r.rcid && x.year == r.year)).map
        (fun x => x.user_id)).toFinset.card)) ∧
    (aiIs1 r = true → (aggregateRow df r).rcid_AI_skill =
      some (((df.filter (fun x =>
          aiIs1 x && x.rcid == r.rcid && x.year == r.year)).map
        (fun x => x.user_id)).toFinset.card)) ∧
    (aiIs1 r = true → tagIs1 r = true →
      (aggregateRow df r).rcid_tag_AI_skill =
      some (((df.filter (fun x =>
          aiIs1 x && tagIs1 x && x.rcid == r.rcid && x.year == r.year)).map
        (fun x => x.user_id)).toFinset.card)) ∧
    (r.id_parat.isSome = true → (aggregateRow df r).id_parat_total =
      some (((df.filter (fun x =>
          x.id_parat == r.id_parat && x.year == r.year)).map
        (fun x => x.user_id)).toFinset.card)) ∧
    (tagIs1 r = true → r.id_parat.isSome = true →
      (aggregateRow df r).id_parat_tag =
      some (((df.filter (fun x =>
          tagIs1 x && x.id_parat == r.id_parat && x.year == r.year)).map
        (fun x => x.user_id)).toFinset.card)) ∧
    (aiIs1 r = true → r.id_parat.isSome = true →
      (aggregateRow df r).id_parat_AI_skill =
      some (((df.filter (fun x =>
          aiIs1 x && x.id_parat == r.id_parat && x.year == r.year)).map
        (fun x => x.user_id)).toFinset.card)) ∧
    (aiIs1 r = true → tagIs1 r = true → r.id_parat.isSome = true →
      (aggregateRow df r).id_parat_tag_AI_skill =
      some (((df.filter (fun x =>
          aiIs1 x && tagIs1 x && x.id_parat == r.id_parat &&
            x.year == r.year)).map
        (fun x => x.user_id)).toFinset.card)) := by
  refine ⟨?_, ?_, ?_, ?_, ?_, ?_, ?_, ?_⟩ <;>
    intros <;> simp_all [aggregateRow, distinctUsers, List.card_toFinset]

/-! ## Claims about the Projector/Combiner (Part 4) and the Part 3 bug -/

/-- C2 evaluation at the failing input: two rows of the same
(rcid = 1, year = 2020) group, one with tag 1 and one with tag 0, receive
different `rcid_tag` values — the count on the tagged row, a missing value
(NaN) on the untagged one — because the fillna(0) of the source runs
before index alignment. -/
theorem c2_metric_gap :
    (aggOk rowsTag).map (fun a => (a.base.rcid, a.base.year)) =
      [(1, 2020), (1, 2020)] ∧
    (aggOk rowsTag).map (fun a => a.rcid_tag) = [some 1, none] ∧
    (aggOk rowsTag).map (fun a => a.id_parat_tag) = [some 1, none] := by
  decide

/-- C1 counterexample: the final combined table can carry two rows for one
(firm_id, year) pair — when the pair appears in two batch files (firm 2,
year 2021 below), and even within a single batch when a firm-year group
mixes tagged and untagged rows, which project to distinct rows (firm 1,
year 2020 below). -/
theorem c1_counterexample :
    countFirmYear (finalTable [aggOk rowsB, aggOk rowsB]) 2 2021 = 2 ∧
    countFirmYear (finalTable [aggOk rowsTag]) 1 2020 = 2 := by
  decide

/-- Within one batch output of the Projector, a (firm_id, year) pair whose
aggregated rows all project to one row value appears at most once. -/
theorem projectBatch_count_le_one (b : List AggRow) (rc y : Int)
    (huniq : ∀ a1 ∈ b, ∀ a2 ∈ b,
      a1.base.rcid = rc → a1.base.year = y →
      a2.base.rcid = rc → a2.base.year = y →
      projectRow a1 = projectRow a2) :
    countFirmYear (projectBatch b) rc y ≤ 1 := by
  unfold countFirmYear projectBatch
  apply countP_le_one_of_nodup (List.nodup_dedup _)
  intro x hx z hz hpx hpz
  obtain ⟨a1, ha1, rfl⟩ := List.mem_map.mp (List.mem_dedup.mp hx)
  obtain ⟨a2, ha2, rfl⟩ := List.mem_map.mp (List.mem_dedup.mp hz)
  simp only [Bool.and_eq_true, beq_iff_eq] at hpx hpz
  exact huniq a1 ha1 a2 ha2 hpx.1 hpx.2 hpz.1 hpz.2

/-- C1 (amended): per batch file, the projected output contains at most one
row per (firm_id, year) pair provided all aggregated rows of that pair in
the batch project to identical values; the final concatenation applies no
further deduplication, so a pair occurring in several batch files is
bounded only by one row per batch, not one row overall. -/
theorem c1_final_table_bound (batches : List (List AggRow)) (rc y : Int)
    (huniq : ∀ b ∈ batches, ∀ a1 ∈ b, ∀ a2 ∈ b,
      a1.base.rcid = rc → a1.base.year = y →
      a2.base.rcid = rc → a2.base.year = y →
      projectRow a1 = projectRow a2) :
    (∀ b ∈ batches, countFirmYear (projectBatch b) rc y ≤ 1) ∧
    countFirmYear (finalTable batches) rc y ≤ batches.length := by
  have hb : ∀ b ∈ batches, countFirmYear (projectBatch b) rc y ≤ 1 :=
    fun b hbm => projectBatch_count_le_one b rc y (huniq b hbm)
  refine ⟨hb, ?_⟩
  unfold finalTable countFirmYear
  rw [List.countP_flatten]
  refine Nat.le_trans (sum_le_length_of_le_one ?_) ?_
  · intro x hx
    obtain ⟨fb, hfb, rfl⟩ := List.mem_map.mp hx
    obtain ⟨b, hbm, rfl⟩ := List.mem_map.mp hfb
    exact hb b hbm
  · simp [List.length_map]

/-- C1 witness: a single valid one-row batch yields a final table with at
most one row for its firm-year. -/
theorem c1_final_table_bound_witness :
    (∀ b ∈ [aggOk rowsB], countFirmYear (projectBatch b) 2 2021 ≤ 1) ∧
    countFirmYear (finalTable [aggOk rowsB]) 2 2021 ≤
      ([aggOk rowsB]).length :=
  c1_final_table_bound [aggOk rowsB] 2 2021 (by decide)

end AIWF
